import Mathlib

/-!
Verification development for the GitGUIManager repository
(src/gitprojectmanager.pyw).  The program is a PyQt5 front-end whose
handlers each build a fixed git argument vector and call
subprocess.run with check=True, capture_output=True, in the working
directory taken from the repo-path text field.  We embed the
subprocess layer as a `World` (which directories exist, and what exit
code / stdout / stderr an argument vector produces), embed each
handler as a pure function from the world and the widget inputs to an
outcome plus the ordered list of attempted subprocess.run calls, and
embed the two string parsers by direct translation of the Python
string operations involved (str.strip, str.split, str.replace,
str.startswith).
-/

/-- Python str.strip with no argument: drop leading and trailing whitespace. -/
def pyStrip (s : String) : String :=
  String.mk (((s.data.dropWhile Char.isWhitespace).reverse.dropWhile Char.isWhitespace).reverse)

/-- Python str.startswith: the given text is a prefix of the string. -/
def pyStartsWith (s pre : String) : Bool :=
  pre.data.isPrefixOf s.data

/-- One whitespace-splitting step of Python str.split with no argument:
walk the characters, accumulating the current (reversed) token. -/
def splitWsAux : List Char → List Char → List (List Char)
  | [], acc => if acc = [] then [] else [acc.reverse]
  | c :: cs, acc =>
    if c.isWhitespace then
      if acc = [] then splitWsAux cs [] else acc.reverse :: splitWsAux cs []
    else splitWsAux cs (c :: acc)

/-- Python str.split with no argument: maximal runs of non-whitespace
characters, in order; no empty tokens are produced. -/
def pySplit (s : String) : List String :=
  (splitWsAux s.data []).map (fun l => String.mk l)

/-- Python str.split with a newline argument: cut at every newline
character, keeping empty pieces (so a trailing newline yields a final
empty piece). -/
def splitNlAux : List Char → List Char → List String
  | [], acc => [String.mk acc.reverse]
  | c :: cs, acc =>
    if c = '\n' then String.mk acc.reverse :: splitNlAux cs []
    else splitNlAux cs (c :: acc)

/-- Lines of a raw output text, as Python splits on the newline character. -/
def pySplitOnNl (s : String) : List String :=
  splitNlAux s.data []

/-- Python str.replace of every asterisk by the empty string: remove
every asterisk character. -/
def pyRemoveStar (s : String) : String :=
  String.mk (s.data.filter (fun c => c ≠ '*'))

/-- Per-line cleaning step of the branch-list parsing loop
(gitprojectmanager.pyw line 667 and line 837):
branch.replace of the asterisk by nothing, then strip. -/
def cleanBranchLine (line : String) : String :=
  pyStrip (pyRemoveStar line)

/-- Branch-list parsing loop of refresh_branches (lines 665-669), also
duplicated verbatim in refresh_remotes (lines 836-839): iterate over the
lines of the raw stdout, clean each line, and append it when non-empty. -/
def parseBranches (raw : String) : List String :=
  (pySplitOnNl raw).foldl
    (fun bs line => if cleanBranchLine line = "" then bs else bs ++ [cleanBranchLine line]) []

/-- Remote-list parsing of refresh_remotes (line 823):
result.stdout.split with no argument. -/
def parseRemotes (raw : String) : List String :=
  pySplit raw

/-- Modelled from the spec words of the branch-list parsing claim, for
comparison with the code: strip surrounding whitespace and one LEADING
asterisk current-branch marker only. -/
def stripLeadingStarLine (line : String) : String :=
  let t := pyStrip line
  if ("*".data).isPrefixOf t.data then pyStrip (String.mk (t.data.drop 1)) else t

/-- Modelled from the spec words: branch-list parsing that strips only a
leading marker per line and discards empty lines. -/
def parseBranchesLeadingOnly (raw : String) : List String :=
  ((pySplitOnNl raw).map stripLeadingStarLine).filter (fun b => b ≠ "")

/-- Result of a completed subprocess: exit code and the two captured streams. -/
structure CommandResult where
  exitCode : Nat
  stdout : String
  stderr : String
  deriving DecidableEq, Repr

/-- The Python exceptions subprocess.run can raise here:
CalledProcessError (check=True and a non-zero exit, carrying the
command and its return code and stderr) and OSError (the spawn itself
failed, e.g. the working directory does not exist). -/
inductive PyExc where
  | calledProcessError (cmd : List String) (returncode : Nat) (stderr : String)
  | osError (reason : String)
  deriving DecidableEq, Repr

/-- The external world the GUI runs against: which directory paths
exist, and the exit code / stdout / stderr produced when an argument
vector runs in a working directory. -/
structure World where
  dirExists : String → Bool
  exec : String → List String → Nat × String × String

/-- Message of the OSError Python raises when the working directory of
subprocess.run does not exist. -/
def noSuchFileMsg (cwd : String) : String :=
  "[Errno 2] No such file or directory: " ++ cwd

/-- Text of str applied to a CalledProcessError, which names the failed
command and its exit status. -/
def cpeStr (cmd : List String) (returncode : Nat) : String :=
  "Command " ++ String.intercalate " " cmd ++ " returned non-zero exit status "
    ++ toString returncode ++ "."

/-- subprocess.run with capture_output=True, text=True, check=True:
OSError when the working directory does not exist; CalledProcessError
when the process exits non-zero; otherwise the captured result. -/
def subprocessRunCheck (w : World) (cwd : String) (argv : List String) :
    Except PyExc CommandResult :=
  if w.dirExists cwd = true then
    if (w.exec cwd argv).1 = 0 then
      .ok ⟨(w.exec cwd argv).1, (w.exec cwd argv).2.1, (w.exec cwd argv).2.2⟩
    else
      .error (.calledProcessError argv (w.exec cwd argv).1 (w.exec cwd argv).2.2)
  else
    .error (.osError (noSuchFileMsg cwd))

/-- What a handler invocation does, as seen by the user: text appended
to an output widget plus the status-bar text, an error dialog, an
exception escaping the handler uncaught, or an early return with no
visible effect. -/
inductive Outcome where
  | output (appended : String) (status : String)
  | errorShown (msg : String)
  | uncaught (e : PyExc)
  | noOp
  deriving DecidableEq, Repr

/-- One attempted subprocess.run call: working directory and argument vector. -/
structure Spawn where
  cwd : String
  argv : List String
  deriving DecidableEq, Repr

/-- Outcome of a handler together with the ordered subprocess.run calls
it attempted. -/
structure HandlerResult where
  outcome : Outcome
  spawns : List Spawn
  deriving DecidableEq, Repr

/-- Widget state of the GitGUI window that the embedded handlers read:
the repo-path text field and the toolbar current-branch attribute. -/
structure GitGUI where
  repo_path : String
  current_branch : String
  deriving DecidableEq, Repr

/-- The common handler shape in gitprojectmanager.pyw: one
subprocess.run call inside try, with a single except clause for
CalledProcessError that shows the error dialog; any OSError escapes
uncaught. onOk builds the success outcome from the captured result. -/
def tryRunCPE (w : World) (cwd : String) (argv : List String)
    (onOk : CommandResult → Outcome) : HandlerResult :=
  match subprocessRunCheck w cwd argv with
  | .ok r => ⟨onOk r, [⟨cwd, argv⟩]⟩
  | .error (.calledProcessError c n _) => ⟨.errorShown (cpeStr c n), [⟨cwd, argv⟩]⟩
  | .error (.osError reason) => ⟨.uncaught (.osError reason), [⟨cwd, argv⟩]⟩

/-- GitGUI.git_init (lines 483-498). -/
def git_init (w : World) (st : GitGUI) : HandlerResult :=
  tryRunCPE w st.repo_path ["git", "init"]
    (fun r => .output r.stdout "Repository initialized")

/-- GitGUI.git_add (lines 500-515). -/
def git_add (w : World) (st : GitGUI) : HandlerResult :=
  tryRunCPE w st.repo_path ["git", "add", "."]
    (fun _ => .output "Files added to staging area" "Files staged")

/-- GitGUI.git_commit (lines 517-537): reject an empty stripped message
before any subprocess.run call, else commit with the stripped message
as one argument element. -/
def git_commit (w : World) (st : GitGUI) (commit_msg_text : String) : HandlerResult :=
  if pyStrip commit_msg_text = "" then
    ⟨.errorShown "Please enter a commit message", []⟩
  else
    tryRunCPE w st.repo_path ["git", "commit", "-m", pyStrip commit_msg_text]
      (fun r => .output r.stdout "Changes committed")

/-- GitGUI.git_push (lines 539-554): push origin plus the stored
current_branch attribute, unstripped. -/
def git_push (w : World) (st : GitGUI) : HandlerResult :=
  tryRunCPE w st.repo_path ["git", "push", "origin", st.current_branch]
    (fun _ => .output "Changes pushed successfully!" "Changes pushed to remote")

/-- GitGUI.git_status (lines 556-570). -/
def git_status (w : World) (st : GitGUI) : HandlerResult :=
  tryRunCPE w st.repo_path ["git", "status"]
    (fun r => .output r.stdout "")

/-- GitGUI.create_branch (lines 576-598). -/
def create_branch (w : World) (st : GitGUI) (nameText : String) : HandlerResult :=
  if pyStrip nameText = "" then
    ⟨.errorShown "Please enter a branch name", []⟩
  else
    tryRunCPE w st.repo_path ["git", "checkout", "-b", pyStrip nameText]
      (fun r => .output r.stdout ("Created and switched to branch: " ++ pyStrip nameText))

/-- GitGUI.delete_branch (lines 600-620): the combo text is used
without stripping. -/
def delete_branch (w : World) (st : GitGUI) (branchSel : String) : HandlerResult :=
  if branchSel = "" then
    ⟨.errorShown "Please select a branch to delete", []⟩
  else
    tryRunCPE w st.repo_path ["git", "branch", "-d", branchSel]
      (fun r => .output r.stdout ("Deleted branch: " ++ branchSel))

/-- GitGUI.rename_branch (lines 622-645). -/
def rename_branch (w : World) (st : GitGUI) (oldSel newText : String) : HandlerResult :=
  if pyStrip oldSel = "" ∨ pyStrip newText = "" then
    ⟨.errorShown "Current or new branch name cannot be empty.", []⟩
  else
    tryRunCPE w st.repo_path ["git", "branch", "-m", pyStrip oldSel, pyStrip newText]
      (fun r => .output r.stdout
        ("Branch " ++ pyStrip oldSel ++ " renamed to " ++ pyStrip newText ++ "."))

/-- GitGUI.refresh_branches (lines 647-689): silent early return when the
stripped repo path is empty; one branch list call (with the unstripped
path as cwd); except clauses for CalledProcessError and then for every
Exception, so an OSError is reported, not uncaught.  Returns the
handler result and the parsed branch list put into the combo boxes. -/
def refresh_branches (w : World) (st : GitGUI) : HandlerResult × List String :=
  if pyStrip st.repo_path = "" then (⟨.noOp, []⟩, [])
  else
    match subprocessRunCheck w st.repo_path ["git", "branch", "--list"] with
    | .ok r => (⟨.output "" "", [⟨st.repo_path, ["git", "branch", "--list"]⟩]⟩,
                parseBranches r.stdout)
    | .error (.calledProcessError c n _) =>
        (⟨.errorShown ("Failed to refresh branches: " ++ cpeStr c n),
          [⟨st.repo_path, ["git", "branch", "--list"]⟩]⟩, [])
    | .error (.osError reason) =>
        (⟨.errorShown ("Unexpected error while refreshing branches: " ++ reason),
          [⟨st.repo_path, ["git", "branch", "--list"]⟩]⟩, [])

/-- GitGUI.handle_merge_branches (lines 691-724): guard on the stripped
combo texts, checkout the target branch, and only then merge the
source branch; the single except clause catches CalledProcessError
from either call. -/
def handle_merge_branches (w : World) (st : GitGUI) (sourceSel targetSel : String) :
    HandlerResult :=
  if pyStrip sourceSel = "" ∨ pyStrip targetSel = "" then
    ⟨.errorShown "Please select source and target branches.", []⟩
  else
    match subprocessRunCheck w st.repo_path ["git", "checkout", pyStrip targetSel] with
    | .error (.calledProcessError c n _) =>
        ⟨.errorShown (cpeStr c n), [⟨st.repo_path, ["git", "checkout", pyStrip targetSel]⟩]⟩
    | .error (.osError reason) =>
        ⟨.uncaught (.osError reason), [⟨st.repo_path, ["git", "checkout", pyStrip targetSel]⟩]⟩
    | .ok _ =>
      match subprocessRunCheck w st.repo_path ["git", "merge", pyStrip sourceSel] with
      | .ok r =>
          ⟨.output r.stdout
            ("Branch " ++ pyStrip sourceSel ++ " merged into " ++ pyStrip targetSel ++ "."),
           [⟨st.repo_path, ["git", "checkout", pyStrip targetSel]⟩,
            ⟨st.repo_path, ["git", "merge", pyStrip sourceSel]⟩]⟩
      | .error (.calledProcessError c n _) =>
          ⟨.errorShown (cpeStr c n),
           [⟨st.repo_path, ["git", "checkout", pyStrip targetSel]⟩,
            ⟨st.repo_path, ["git", "merge", pyStrip sourceSel]⟩]⟩
      | .error (.osError reason) =>
          ⟨.uncaught (.osError reason),
           [⟨st.repo_path, ["git", "checkout", pyStrip targetSel]⟩,
            ⟨st.repo_path, ["git", "merge", pyStrip sourceSel]⟩]⟩

/-- GitGUI.git_fetch (lines 726-741). -/
def git_fetch (w : World) (st : GitGUI) : HandlerResult :=
  tryRunCPE w st.repo_path ["git", "fetch"]
    (fun r => .output r.stdout "Fetched latest updates from remote")

/-- GitGUI.refresh_branch_history (lines 743-759). -/
def refresh_branch_history (w : World) (st : GitGUI) : HandlerResult :=
  tryRunCPE w st.repo_path ["git", "log", "--oneline", "--graph", "--all"]
    (fun r => .output r.stdout "Branch history refreshed.")

/-- GitGUI.add_remote (lines 765-785): remote named origin from the
basic tab. -/
def add_remote (w : World) (st : GitGUI) (urlText : String) : HandlerResult :=
  if pyStrip urlText = "" then
    ⟨.errorShown "Please enter remote repository URL", []⟩
  else
    tryRunCPE w st.repo_path ["git", "remote", "add", "origin", pyStrip urlText]
      (fun _ => .output "Remote repository added successfully." "Remote added")

/-- GitGUI.add_remote_custom (lines 787-809): remote name and URL from
the advanced tab, each passed as its own argument element. -/
def add_remote_custom (w : World) (st : GitGUI) (nameText urlText : String) : HandlerResult :=
  if pyStrip nameText = "" ∨ pyStrip urlText = "" then
    ⟨.errorShown "Please enter remote name and URL", []⟩
  else
    tryRunCPE w st.repo_path ["git", "remote", "add", pyStrip nameText, pyStrip urlText]
      (fun r => .output r.stdout ("Remote " ++ pyStrip nameText ++ " added."))

/-- GitGUI.refresh_remotes (lines 811-843): list remotes, then list
branches; only CalledProcessError is caught.  Returns the handler result,
the parsed remote names, and the parsed branch names for the push combo. -/
def refresh_remotes (w : World) (st : GitGUI) :
    HandlerResult × List String × List String :=
  match subprocessRunCheck w st.repo_path ["git", "remote"] with
  | .error (.calledProcessError c n _) =>
      (⟨.errorShown (cpeStr c n), [⟨st.repo_path, ["git", "remote"]⟩]⟩, [], [])
  | .error (.osError reason) =>
      (⟨.uncaught (.osError reason), [⟨st.repo_path, ["git", "remote"]⟩]⟩, [], [])
  | .ok r1 =>
    match subprocessRunCheck w st.repo_path ["git", "branch", "--list"] with
    | .error (.calledProcessError c n _) =>
        (⟨.errorShown (cpeStr c n),
          [⟨st.repo_path, ["git", "remote"]⟩, ⟨st.repo_path, ["git", "branch", "--list"]⟩]⟩,
         parseRemotes r1.stdout, [])
    | .error (.osError reason) =>
        (⟨.uncaught (.osError reason),
          [⟨st.repo_path, ["git", "remote"]⟩, ⟨st.repo_path, ["git", "branch", "--list"]⟩]⟩,
         parseRemotes r1.stdout, [])
    | .ok r2 =>
        (⟨.output "Remote list refreshed." "",
          [⟨st.repo_path, ["git", "remote"]⟩, ⟨st.repo_path, ["git", "branch", "--list"]⟩]⟩,
         parseRemotes r1.stdout, parseBranches r2.stdout)

/-- GitGUI.git_push_advanced (lines 845-871): stripped branch from the
push combo, with the force flag inserting --force before the branch. -/
def git_push_advanced (w : World) (st : GitGUI) (branchSel : String) (force : Bool) :
    HandlerResult :=
  if pyStrip branchSel = "" then
    ⟨.errorShown "No branch selected for push", []⟩
  else
    tryRunCPE w st.repo_path
      (if force then ["git", "push", "origin", "--force", pyStrip branchSel]
       else ["git", "push", "origin", pyStrip branchSel])
      (fun r => .output r.stdout ("Pushed to remote (branch: " ++ pyStrip branchSel ++ ")"))

/-- GitGUI.git_pull (lines 873-889). -/
def git_pull (w : World) (st : GitGUI) : HandlerResult :=
  tryRunCPE w st.repo_path ["git", "pull"]
    (fun r => .output r.stdout "Changes pulled from remote")

/-- GitGUI.change_branch (lines 895-920): current_branch is assigned
before the checkout runs; checkout -b runs with check=True, so the
returncode test guarding the plain checkout fallback only sees
returncode zero; a non-zero exit raises CalledProcessError instead. -/
def change_branch (w : World) (st : GitGUI) (branch_name : String) :
    GitGUI × HandlerResult :=
  let st1 : GitGUI := { st with current_branch := branch_name }
  match subprocessRunCheck w st.repo_path ["git", "checkout", "-b", branch_name] with
  | .ok r =>
      if r.exitCode ≠ 0 then
        match subprocessRunCheck w st.repo_path ["git", "checkout", branch_name] with
        | .ok _ =>
            (st1, ⟨.output "" ("Switched to branch: " ++ branch_name),
              [⟨st.repo_path, ["git", "checkout", "-b", branch_name]⟩,
               ⟨st.repo_path, ["git", "checkout", branch_name]⟩]⟩)
        | .error (.calledProcessError c n _) =>
            (st1, ⟨.errorShown (cpeStr c n),
              [⟨st.repo_path, ["git", "checkout", "-b", branch_name]⟩,
               ⟨st.repo_path, ["git", "checkout", branch_name]⟩]⟩)
        | .error (.osError reason) =>
            (st1, ⟨.uncaught (.osError reason),
              [⟨st.repo_path, ["git", "checkout", "-b", branch_name]⟩,
               ⟨st.repo_path, ["git", "checkout", branch_name]⟩]⟩)
      else
        (st1, ⟨.output "" ("Switched to branch: " ++ branch_name),
          [⟨st.repo_path, ["git", "checkout", "-b", branch_name]⟩]⟩)
  | .error (.calledProcessError c n _) =>
      (st1, ⟨.errorShown (cpeStr c n),
        [⟨st.repo_path, ["git", "checkout", "-b", branch_name]⟩]⟩)
  | .error (.osError reason) =>
      (st1, ⟨.uncaught (.osError reason),
        [⟨st.repo_path, ["git", "checkout", "-b", branch_name]⟩]⟩)

/-- GitGUI.execute_command (lines 930-968): guard on a non-empty
stripped repo path, then a string-prefix test of the stripped input
against the text git; the accepted input is split on whitespace and
run; CalledProcessError, OSError and every other Exception are all
caught and shown as dialogs. -/
def execute_command (w : World) (st : GitGUI) (input : String) : HandlerResult :=
  if pyStrip st.repo_path = "" then
    ⟨.errorShown "Please select a repository path first", []⟩
  else if pyStartsWith (pyStrip input) "git" = false then
    ⟨.errorShown "Only git commands are allowed", []⟩
  else
    match subprocessRunCheck w (pyStrip st.repo_path) (pySplit (pyStrip input)) with
    | .ok r =>
        ⟨.output ("$ " ++ pyStrip input ++ "\n" ++ r.stdout) "",
         [⟨pyStrip st.repo_path, pySplit (pyStrip input)⟩]⟩
    | .error (.calledProcessError c n _) =>
        ⟨.errorShown ("Command failed: " ++ cpeStr c n),
         [⟨pyStrip st.repo_path, pySplit (pyStrip input)⟩]⟩
    | .error (.osError reason) =>
        ⟨.errorShown ("System error: " ++ reason),
         [⟨pyStrip st.repo_path, pySplit (pyStrip input)⟩]⟩

/-- A GUI state with a set repository path used by the concrete instances. -/
def stRepo : GitGUI := ⟨"repo", "main"⟩

/-- A world where every directory exists and every command succeeds with
stdout text out. -/
def wAllOk : World := ⟨fun _ => true, fun _ _ => (0, "out", "")⟩

/-- A world where no directory exists, so every spawn raises OSError. -/
def wNoDir : World := ⟨fun _ => false, fun _ _ => (0, "", "")⟩

example : pyStrip "  a b " = "a b" := by decide
example : pySplit " origin  upstream\n" = ["origin", "upstream"] := by decide
example : pySplitOnNl "a\nb\n" = ["a", "b", ""] := by decide
example : parseBranches "* main\n  develop\n  feature/x\n" = ["main", "develop", "feature/x"] := by
  decide
example : pyStartsWith "gitfoo" "git" = true := by decide
example : execute_command wAllOk stRepo "gitfoo"
    = ⟨.output "$ gitfoo\nout" "", [⟨"repo", ["gitfoo"]⟩]⟩ := by decide
example : (git_init wNoDir stRepo).outcome
    = .uncaught (.osError (noSuchFileMsg "repo")) := by decide

/-- A world where every directory exists but the checkout of branch main
exits non-zero, as when the working tree has conflicting changes. -/
def wMergeCheckoutFails : World :=
  ⟨fun _ => true,
   fun _ argv => if argv = ["git", "checkout", "main"] then (1, "", "conflict") else (0, "", "")⟩

/-- A world where every directory exists, checkout succeeds, and the
merge of branch feature exits non-zero, as on a merge conflict. -/
def wMergeMergeFails : World :=
  ⟨fun _ => true,
   fun _ argv => if argv = ["git", "merge", "feature"] then (1, "", "conflict") else (0, "", "")⟩

/-- A world where checkout -b develop exits non-zero, as when the branch
develop already exists. -/
def wBranchExists : World :=
  ⟨fun _ => true,
   fun _ argv =>
     if argv = ["git", "checkout", "-b", "develop"] then (1, "", "branch exists")
     else (0, "", "")⟩

theorem subprocessRunCheck_noDir {w : World} {cwd : String} (argv : List String)
    (h : w.dirExists cwd = false) :
    subprocessRunCheck w cwd argv = .error (.osError (noSuchFileMsg cwd)) := by
  simp [subprocessRunCheck, h]

theorem subprocessRunCheck_ok_exitCode {w : World} {cwd : String} {argv : List String}
    {r : CommandResult} (h : subprocessRunCheck w cwd argv = .ok r) :
    r.exitCode = 0 := by
  unfold subprocessRunCheck at h
  by_cases hd : w.dirExists cwd = true
  · rw [if_pos hd] at h
    by_cases hz : (w.exec cwd argv).1 = 0
    · rw [if_pos hz] at h
      cases h
      simpa using hz
    · rw [if_neg hz] at h
      cases h
  · rw [if_neg hd] at h
    cases h

theorem subprocessRunCheck_cpe_cmd {w : World} {cwd : String} {argv cmd : List String}
    {n : Nat} {e : String}
    (h : subprocessRunCheck w cwd argv = .error (.calledProcessError cmd n e)) :
    cmd = argv := by
  unfold subprocessRunCheck at h
  by_cases hd : w.dirExists cwd = true
  · rw [if_pos hd] at h
    by_cases hz : (w.exec cwd argv).1 = 0
    · rw [if_pos hz] at h
      cases h
    · rw [if_neg hz] at h
      cases h
      rfl
  · rw [if_neg hd] at h
    cases h

theorem tryRunCPE_spawns (w : World) (cwd : String) (argv : List String)
    (onOk : CommandResult → Outcome) :
    (tryRunCPE w cwd argv onOk).spawns = [⟨cwd, argv⟩] := by
  unfold tryRunCPE
  cases subprocessRunCheck w cwd argv with
  | ok r => rfl
  | error e => cases e <;> rfl

theorem tryRunCPE_noDir {w : World} {cwd : String} (argv : List String)
    (onOk : CommandResult → Outcome) (h : w.dirExists cwd = false) :
    tryRunCPE w cwd argv onOk = ⟨.uncaught (.osError (noSuchFileMsg cwd)), [⟨cwd, argv⟩]⟩ := by
  rw [tryRunCPE, subprocessRunCheck_noDir argv h]

theorem foldl_append_filter (f : String → String) :
    ∀ (lines : List String) (acc : List String),
      lines.foldl (fun bs line => if f line = "" then bs else bs ++ [f line]) acc
        = acc ++ (lines.map f).filter (fun b => b ≠ "") := by
  intro lines
  induction lines with
  | nil => intro acc; simp
  | cons l ls ih =>
    intro acc
    by_cases h : f l = ""
    · simp [List.foldl_cons, h, ih]
    · simp [List.foldl_cons, h, ih]

theorem splitWsAux_tokens :
    ∀ (cs acc : List Char), (∀ c ∈ acc, c.isWhitespace = false) →
      ∀ t ∈ splitWsAux cs acc, t ≠ [] ∧ ∀ c ∈ t, c.isWhitespace = false := by
  intro cs
  induction cs with
  | nil =>
    intro acc hacc t ht
    by_cases h : acc = []
    · simp [splitWsAux, h] at ht
    · simp only [splitWsAux, if_neg h, List.mem_singleton] at ht
      subst ht
      refine ⟨by simpa using h, ?_⟩
      intro c hc
      exact hacc c (List.mem_reverse.mp hc)
  | cons c cs ih =>
    intro acc hacc t ht
    by_cases hw : c.isWhitespace = true
    · by_cases h : acc = []
      · simp only [splitWsAux, hw, if_true, if_pos h] at ht
        exact ih [] (by simp) t ht
      · simp only [splitWsAux, hw, if_true, if_neg h, List.mem_cons] at ht
        cases ht with
        | inl he =>
          subst he
          refine ⟨by simpa using h, ?_⟩
          intro c2 hc2
          exact hacc c2 (List.mem_reverse.mp hc2)
        | inr hm => exact ih [] (by simp) t hm
    · simp only [splitWsAux, hw, if_false, Bool.false_eq_true] at ht
      refine ih (c :: acc) ?_ t ht
      intro c2 hc2
      rcases List.mem_cons.mp hc2 with h1 | h2
      · subst h1
        simpa using hw
      · exact hacc c2 h2

/-- C6 (amended): the branch-list parser returns, in order, each line of
the raw text with EVERY asterisk character removed (not only a leading
current-branch marker) and surrounding whitespace stripped, discarding
empty lines; on the raw text of the claim the result is still the list
main, develop, feature/x. -/
theorem branch_parse_removes_all_stars :
    (∀ raw : String, parseBranches raw
        = ((pySplitOnNl raw).map cleanBranchLine).filter (fun b => b ≠ ""))
    ∧ parseBranches "* main\n  develop\n  feature/x\n" = ["main", "develop", "feature/x"] := by
  constructor
  · intro raw
    exact (foldl_append_filter cleanBranchLine (pySplitOnNl raw) []).trans (by simp)
  · decide

/-- C6 counterexample: on the raw line containing an interior asterisk
the code removes the asterisk, while a parser that strips only the
leading current-branch marker (the claim wording) keeps it. -/
theorem branch_parse_interior_star_cex :
    parseBranches "x*y" = ["xy"]
    ∧ parseBranchesLeadingOnly "x*y" = ["x*y"]
    ∧ parseBranches "x*y" ≠ parseBranchesLeadingOnly "x*y" := by decide

/-- C7: the remote-list parser returns the whitespace-separated tokens
of the raw text in order; on the raw text origin upstream with a
trailing newline it returns the two names, and every returned token is
non-empty and contains no whitespace character. -/
theorem remote_parse_tokens :
    parseRemotes "origin upstream\n" = ["origin", "upstream"]
    ∧ ∀ raw : String, ∀ t ∈ parseRemotes raw,
        t ≠ "" ∧ ∀ c ∈ t.data, c.isWhitespace = false := by
  constructor
  · decide
  · intro raw t ht
    unfold parseRemotes pySplit at ht
    rcases List.mem_map.mp ht with ⟨l, hl, rfl⟩
    have h := splitWsAux_tokens raw.data [] (by simp) l hl
    constructor
    · intro hcon
      exact h.1 (by simpa using congrArg String.data hcon)
    · intro ch hch
      exact h.2 ch hch

/-- C7 witness: the token origin of the concrete raw text, with the
membership hypothesis discharged there. -/
theorem remote_parse_tokens_witness :
    ("origin" : String) ∈ parseRemotes "origin upstream\n" ∧ ("origin" : String) ≠ "" :=
  ⟨by decide, (remote_parse_tokens.2 "origin upstream\n" "origin" (by decide)).1⟩

/-- C8: a commit whose message is empty after stripping is rejected with
the dialog text before any subprocess.run call: the spawn list is empty. -/
theorem commit_empty_message_rejected (w : World) (st : GitGUI) (m : String)
    (hm : pyStrip m = "") :
    git_commit w st m = ⟨.errorShown "Please enter a commit message", []⟩ := by
  simp [git_commit, hm]

/-- C8 witness: a whitespace-only message in a concrete world. -/
theorem commit_empty_message_rejected_witness :
    pyStrip "   " = ""
    ∧ git_commit wAllOk stRepo "   " = ⟨.errorShown "Please enter a commit message", []⟩ :=
  ⟨by decide, commit_empty_message_rejected wAllOk stRepo "   " (by decide)⟩

/-- C9: for a non-empty (already stripped, as combo-box branch names
are) selected branch, the advanced push runs exactly push origin branch
without the force flag and exactly push origin --force branch with it;
the basic push always runs exactly push origin current_branch. -/
theorem push_argument_vector (w : World) (st : GitGUI) (b : String) (force : Bool)
    (hb : b ≠ "") (ht : pyStrip b = b) :
    (git_push_advanced w st b force).spawns
      = [⟨st.repo_path,
          if force then ["git", "push", "origin", "--force", b]
          else ["git", "push", "origin", b]⟩]
    ∧ ∀ b2 : String, (git_push w { st with current_branch := b2 }).spawns
        = [⟨st.repo_path, ["git", "push", "origin", b2]⟩] := by
  constructor
  · unfold git_push_advanced
    rw [ht, if_neg hb, tryRunCPE_spawns]
  · intro b2
    unfold git_push
    rw [tryRunCPE_spawns]

/-- C9 witness: the forced push of branch main in a concrete world. -/
theorem push_argument_vector_witness :
    ("main" : String) ≠ "" ∧ pyStrip "main" = "main"
    ∧ (git_push_advanced wAllOk stRepo "main" true).spawns
        = [⟨"repo", ["git", "push", "origin", "--force", "main"]⟩] :=
  ⟨by decide, by decide,
   ((push_argument_vector wAllOk stRepo "main" true (by decide) (by decide)).1).trans
     (by decide)⟩

/-- C10: user-supplied free text (commit message, remote name and URL,
branch names) is passed as one discrete element of the argument vector:
for every text the spawned vector is the fixed word list with the
stripped text occupying single positions, never re-tokenized. -/
theorem free_text_single_argument (w : World) (st : GitGUI) :
    (∀ m : String, pyStrip m ≠ "" →
      (git_commit w st m).spawns = [⟨st.repo_path, ["git", "commit", "-m", pyStrip m]⟩])
    ∧ (∀ nm url : String, pyStrip nm ≠ "" → pyStrip url ≠ "" →
      (add_remote_custom w st nm url).spawns
        = [⟨st.repo_path, ["git", "remote", "add", pyStrip nm, pyStrip url]⟩])
    ∧ (∀ b : String, pyStrip b ≠ "" →
      (create_branch w st b).spawns
        = [⟨st.repo_path, ["git", "checkout", "-b", pyStrip b]⟩])
    ∧ (∀ old nw : String, pyStrip old ≠ "" → pyStrip nw ≠ "" →
      (rename_branch w st old nw).spawns
        = [⟨st.repo_path, ["git", "branch", "-m", pyStrip old, pyStrip nw]⟩]) := by
  refine ⟨?_, ?_, ?_, ?_⟩
  · intro m hm
    unfold git_commit
    rw [if_neg hm, tryRunCPE_spawns]
  · intro nm url h1 h2
    unfold add_remote_custom
    rw [if_neg (by simp [h1, h2]), tryRunCPE_spawns]
  · intro b hb
    unfold create_branch
    rw [if_neg hb, tryRunCPE_spawns]
  · intro o nw h1 h2
    unfold rename_branch
    rw [if_neg (by simp [h1, h2]), tryRunCPE_spawns]

/-- C10 witness: the shell-metacharacter text stays one commit argument:
the spawned vector has exactly four elements and the text is the fourth. -/
theorem free_text_single_argument_witness :
    pyStrip "; rm -rf /" ≠ ""
    ∧ pyStrip "; rm -rf /" = "; rm -rf /"
    ∧ (git_commit wAllOk stRepo "; rm -rf /").spawns
        = [⟨"repo", ["git", "commit", "-m", "; rm -rf /"]⟩]
    ∧ ["git", "commit", "-m", "; rm -rf /"].length = 4 :=
  ⟨by decide, by decide,
   ((free_text_single_argument wAllOk stRepo).1 "; rm -rf /" (by decide)).trans (by decide),
   by decide⟩

/-- C2 counterexample: the input gitfoo has first whitespace token
gitfoo, which is not the executable name git, yet the terminal handler
does not reject it: a process is spawned with that token as the
argument vector. -/
theorem terminal_prefix_cex :
    pySplit (pyStrip "gitfoo") = ["gitfoo"]
    ∧ ("gitfoo" : String) ≠ "git"
    ∧ execute_command wAllOk stRepo "gitfoo"
        = ⟨.output "$ gitfoo\nout" "", [⟨"repo", ["gitfoo"]⟩]⟩
    ∧ execute_command wAllOk stRepo "gitfoo"
        ≠ ⟨.errorShown "Only git commands are allowed", []⟩ := by
  decide

/-- C2 (amended): with a repository path set, the terminal guard is a
string-prefix test, not a token test: the command is rejected with the
dialog text and no spawn exactly when the stripped input does not start
with the characters git; when it does start with git, the stripped
input is split on whitespace and spawned as the argument vector. -/
theorem terminal_prefix_check (w : World) (st : GitGUI) (input : String)
    (hrepo : pyStrip st.repo_path ≠ "") :
    (pyStartsWith (pyStrip input) "git" = false →
      execute_command w st input = ⟨.errorShown "Only git commands are allowed", []⟩)
    ∧ (pyStartsWith (pyStrip input) "git" = true →
      (execute_command w st input).spawns
        = [⟨pyStrip st.repo_path, pySplit (pyStrip input)⟩]) := by
  constructor
  · intro hng
    unfold execute_command
    rw [if_neg hrepo, if_pos hng]
  · intro hg
    unfold execute_command
    rw [if_neg hrepo, if_neg (by simp [hg])]
    split <;> rfl

/-- C2 witness: a non-git input is rejected without a spawn. -/
theorem terminal_prefix_check_witness :
    pyStrip stRepo.repo_path ≠ ""
    ∧ execute_command wAllOk stRepo "ls -la"
        = ⟨.errorShown "Only git commands are allowed", []⟩ :=
  ⟨by decide, (terminal_prefix_check wAllOk stRepo "ls -la" (by decide)).1 (by decide)⟩

/-- C3: in the two-step merge, when the checkout of the target branch
exits non-zero the merge is never spawned and the dialog carries the
checkout command; when checkout succeeds and the merge exits non-zero,
the failure is surfaced as a dialog carrying the merge command, never
swallowed. -/
theorem merge_checkout_sequencing (w : World) (st : GitGUI) (src tgt : String)
    (hs : pyStrip src ≠ "") (ht : pyStrip tgt ≠ "") :
    (∀ cmd n e, subprocessRunCheck w st.repo_path ["git", "checkout", pyStrip tgt]
        = .error (.calledProcessError cmd n e) →
      handle_merge_branches w st src tgt
        = ⟨.errorShown (cpeStr cmd n), [⟨st.repo_path, ["git", "checkout", pyStrip tgt]⟩]⟩
      ∧ cmd = ["git", "checkout", pyStrip tgt])
    ∧ (∀ r cmd n e,
        subprocessRunCheck w st.repo_path ["git", "checkout", pyStrip tgt] = .ok r →
        subprocessRunCheck w st.repo_path ["git", "merge", pyStrip src]
          = .error (.calledProcessError cmd n e) →
      handle_merge_branches w st src tgt
        = ⟨.errorShown (cpeStr cmd n),
           [⟨st.repo_path, ["git", "checkout", pyStrip tgt]⟩,
            ⟨st.repo_path, ["git", "merge", pyStrip src]⟩]⟩
      ∧ cmd = ["git", "merge", pyStrip src]) := by
  constructor
  · intro cmd n e hc
    refine ⟨?_, subprocessRunCheck_cpe_cmd hc⟩
    unfold handle_merge_branches
    rw [if_neg (by simp [hs, ht]), hc]
  · intro r cmd n e hok hm
    refine ⟨?_, subprocessRunCheck_cpe_cmd hm⟩
    unfold handle_merge_branches
    rw [if_neg (by simp [hs, ht]), hok, hm]

/-- C3 witness: a concrete world where the checkout of main fails; the
merge of feature is never spawned and the dialog names the checkout. -/
theorem merge_checkout_sequencing_witness :
    pyStrip "feature" ≠ "" ∧ pyStrip "main" ≠ ""
    ∧ handle_merge_branches wMergeCheckoutFails stRepo "feature" "main"
        = ⟨.errorShown (cpeStr ["git", "checkout", "main"] 1),
           [⟨"repo", ["git", "checkout", "main"]⟩]⟩ :=
  ⟨by decide, by decide,
   (((merge_checkout_sequencing wMergeCheckoutFails stRepo "feature" "main"
        (by decide) (by decide)).1
      ["git", "checkout", "main"] 1 "conflict" rfl).1).trans (by decide)⟩

/-- C4: because subprocess.run is called with check=True, a failing
checkout -b develop raises CalledProcessError and the handler jumps to
the dialog: the plain checkout develop fallback guarded by the dead
returncode test is never spawned. -/
theorem change_branch_fallback_dead :
    (change_branch wBranchExists stRepo "develop").2
      = ⟨.errorShown (cpeStr ["git", "checkout", "-b", "develop"] 1),
         [⟨"repo", ["git", "checkout", "-b", "develop"]⟩]⟩
    ∧ (⟨"repo", ["git", "checkout", "develop"]⟩ : Spawn)
        ∉ (change_branch wBranchExists stRepo "develop").2.spawns := by
  decide

/-- C5: change_branch assigns current_branch before the checkout runs,
so the stored branch equals the requested name in every world, even one
where the checkout fails, and a subsequent basic push pushes origin
with that stored name. -/
theorem change_branch_state_mutation (w : World) (st : GitGUI) (b : String) :
    (change_branch w st b).1 = { st with current_branch := b }
    ∧ (git_push w (change_branch w st b).1).spawns
        = [⟨st.repo_path, ["git", "push", "origin", b]⟩]
    ∧ (change_branch wBranchExists stRepo "develop").1.current_branch = "develop" := by
  have h1 : (change_branch w st b).1 = { st with current_branch := b } := by
    unfold change_branch
    repeat' split
    all_goals rfl
  refine ⟨h1, ?_, by decide⟩
  rw [h1]
  unfold git_push
  rw [tryRunCPE_spawns]

/-- C1 counterexample: with a non-existent working directory, git_init
catches only CalledProcessError, so the OSError from the failed spawn
escapes the handler uncaught instead of being reported as an error. -/
theorem missing_workdir_uncaught_cex :
    (git_init wNoDir stRepo).outcome = .uncaught (.osError (noSuchFileMsg "repo")) := by
  decide

/-- C1 (amended): when the working directory does not exist, only the
free-form terminal handler (which catches OSError) and refresh_branches
(which catches every Exception) report the failure as an error dialog;
every other command handler catches only CalledProcessError, so the
OSError raised by the failed spawn propagates out of the handler
uncaught. -/
theorem missing_workdir_behavior (w : World) (st : GitGUI)
    (hd : w.dirExists st.repo_path = false)
    (hdt : w.dirExists (pyStrip st.repo_path) = false) :
    (git_init w st).outcome = .uncaught (.osError (noSuchFileMsg st.repo_path))
    ∧ (pyStrip st.repo_path ≠ "" → ∀ input : String,
        pyStartsWith (pyStrip input) "git" = true →
        (execute_command w st input).outcome
          = .errorShown ("System error: " ++ noSuchFileMsg (pyStrip st.repo_path)))
    ∧ (pyStrip st.repo_path ≠ "" →
        (refresh_branches w st).1.outcome
          = .errorShown ("Unexpected error while refreshing branches: "
              ++ noSuchFileMsg st.repo_path))
    ∧ (git_add w st).outcome = .uncaught (.osError (noSuchFileMsg st.repo_path))
    ∧ (git_status w st).outcome = .uncaught (.osError (noSuchFileMsg st.repo_path))
    ∧ (git_pull w st).outcome = .uncaught (.osError (noSuchFileMsg st.repo_path))
    ∧ (git_fetch w st).outcome = .uncaught (.osError (noSuchFileMsg st.repo_path))
    ∧ (refresh_branch_history w st).outcome
        = .uncaught (.osError (noSuchFileMsg st.repo_path))
    ∧ (git_push w st).outcome = .uncaught (.osError (noSuchFileMsg st.repo_path))
    ∧ (∀ m : String, pyStrip m ≠ "" →
        (git_commit w st m).outcome = .uncaught (.osError (noSuchFileMsg st.repo_path)))
    ∧ (∀ b : String, pyStrip b ≠ "" →
        (create_branch w st b).outcome = .uncaught (.osError (noSuchFileMsg st.repo_path)))
    ∧ (∀ b : String, b ≠ "" →
        (delete_branch w st b).outcome = .uncaught (.osError (noSuchFileMsg st.repo_path)))
    ∧ (∀ old nw : String, pyStrip old ≠ "" → pyStrip nw ≠ "" →
        (rename_branch w st old nw).outcome
          = .uncaught (.osError (noSuchFileMsg st.repo_path)))
    ∧ (∀ src tgt : String, pyStrip src ≠ "" → pyStrip tgt ≠ "" →
        (handle_merge_branches w st src tgt).outcome
          = .uncaught (.osError (noSuchFileMsg st.repo_path)))
    ∧ (∀ u : String, pyStrip u ≠ "" →
        (add_remote w st u).outcome = .uncaught (.osError (noSuchFileMsg st.repo_path)))
    ∧ (∀ nm u : String, pyStrip nm ≠ "" → pyStrip u ≠ "" →
        (add_remote_custom w st nm u).outcome
          = .uncaught (.osError (noSuchFileMsg st.repo_path)))
    ∧ (refresh_remotes w st).1.outcome = .uncaught (.osError (noSuchFileMsg st.repo_path))
    ∧ (∀ (b : String) (force : Bool), pyStrip b ≠ "" →
        (git_push_advanced w st b force).outcome
          = .uncaught (.osError (noSuchFileMsg st.repo_path)))
    ∧ (∀ b : String, (change_branch w st b).2.outcome
        = .uncaught (.osError (noSuchFileMsg st.repo_path))) := by
  refine ⟨?_, ?_, ?_, ?_, ?_, ?_, ?_, ?_, ?_, ?_, ?_, ?_, ?_, ?_, ?_, ?_, ?_, ?_, ?_⟩
  · rw [git_init, tryRunCPE_noDir _ _ hd]
  · intro hrepo input hg
    unfold execute_command
    rw [if_neg hrepo, if_neg (by simp [hg]), subprocessRunCheck_noDir _ hdt]
  · intro hrepo
    unfold refresh_branches
    rw [if_neg hrepo, subprocessRunCheck_noDir _ hd]
  · rw [git_add, tryRunCPE_noDir _ _ hd]
  · rw [git_status, tryRunCPE_noDir _ _ hd]
  · rw [git_pull, tryRunCPE_noDir _ _ hd]
  · rw [git_fetch, tryRunCPE_noDir _ _ hd]
  · rw [refresh_branch_history, tryRunCPE_noDir _ _ hd]
  · rw [git_push, tryRunCPE_noDir _ _ hd]
  · intro m hm
    unfold git_commit
    rw [if_neg hm, tryRunCPE_noDir _ _ hd]
  · intro b hb
    unfold create_branch
    rw [if_neg hb, tryRunCPE_noDir _ _ hd]
  · intro b hb
    unfold delete_branch
    rw [if_neg hb, tryRunCPE_noDir _ _ hd]
  · intro o nw h1 h2
    unfold rename_branch
    rw [if_neg (by simp [h1, h2]), tryRunCPE_noDir _ _ hd]
  · intro src tgt hs htg
    unfold handle_merge_branches
    rw [if_neg (by simp [hs, htg]), subprocessRunCheck_noDir _ hd]
  · intro u hu
    unfold add_remote
    rw [if_neg hu, tryRunCPE_noDir _ _ hd]
  · intro nm u h1 h2
    unfold add_remote_custom
    rw [if_neg (by simp [h1, h2]), tryRunCPE_noDir _ _ hd]
  · unfold refresh_remotes
    rw [subprocessRunCheck_noDir _ hd]
  · intro b force hb
    unfold git_push_advanced
    rw [if_neg hb, tryRunCPE_noDir _ _ hd]
  · intro b
    unfold change_branch
    rw [subprocessRunCheck_noDir _ hd]

/-- C1 witness: a world with no directories; commit propagates uncaught
while the terminal handler reports a system error. -/
theorem missing_workdir_behavior_witness :
    wNoDir.dirExists stRepo.repo_path = false
    ∧ wNoDir.dirExists (pyStrip stRepo.repo_path) = false
    ∧ (git_commit wNoDir stRepo "msg").outcome
        = .uncaught (.osError (noSuchFileMsg "repo"))
    ∧ (execute_command wNoDir stRepo "git status").outcome
        = .errorShown ("System error: " ++ noSuchFileMsg "repo") :=
  ⟨rfl, rfl,
   ((missing_workdir_behavior wNoDir stRepo rfl rfl).2.2.2.2.2.2.2.2.2.1 "msg"
      (by decide)).trans (by decide),
   ((missing_workdir_behavior wNoDir stRepo rfl rfl).2.1 (by decide) "git status"
      (by decide)).trans (by decide)⟩
